import Mathlib

/-!
Verification of the numerical estimation stack of the AR head try-on
application (`src/js/modules/OptimizedKalmanFilter.js`,
`src/js/modules/AutoScaleDetection.js`, `src/js/modules/FaceTracker.js`,
configuration from the `CONFIG` object exporting `KALMAN`, `AUTO_SCALE`,
`FACE_LANDMARKS`, `TRACKING`).

The JavaScript number type is modelled by an arbitrary linear ordered
field: the scalar filter is stated over `ℚ` (exact, executable), while the
components that use `Math.sqrt` and trigonometry (quaternion
normalization, the scale calibrator, the pose extractor) are stated over
`ℝ`.  All arithmetic is exact here; `isNaN` checks of the source are
consequently vacuous (noted at each spot where one is dropped).  Mutation
of `this` is modelled by explicit state passing: a method that mutates the
object and returns a value becomes a function returning a pair of the
value and the new state.
-/

namespace ARFit

/-- History capacity `this.history.maxHistory = 100` of
`OptimizedKalmanFilter`; it is set once in the constructor and never
written afterwards, so it is modelled as a constant. -/
def maxHistory : ℕ := 100

/-- The `this.history` record of `OptimizedKalmanFilter`: three parallel
arrays of measurements, estimates and innovations. -/
structure History (α : Type) where
  measurements : List α
  estimates : List α
  innovations : List α

/-- The empty history the constructor and `reset()` install. -/
def History.empty {α : Type} : History α := ⟨[], [], []⟩

/-- `OptimizedKalmanFilter.addToHistory` restricted to the history record:
push the new entry onto each array, then drop the oldest entry of each
(`shift()`) once the arrays exceed `maxHistory`. -/
def History.addToHistory {α : Type} (h : History α) (measurement estimate innovation : α) :
    History α :=
  let ms := h.measurements ++ [measurement]
  let es := h.estimates ++ [estimate]
  let inn := h.innovations ++ [innovation]
  if maxHistory < ms.length then ⟨ms.tail, es.tail, inn.tail⟩ else ⟨ms, es, inn⟩

/-- State of `OptimizedKalmanFilter` (js/modules/OptimizedKalmanFilter.js):
process noise `Q`, measurement noise `R`, estimate `x`, error covariance
`P`, Kalman gain `K`, the initialization flag and the history record. -/
structure OptimizedKalmanFilter (α : Type) where
  Q : α
  R : α
  x : α
  P : α
  K : α
  isInitialized : Bool
  history : History α

variable {α : Type} [LinearOrderedField α]

/-- The constructor `new OptimizedKalmanFilter(processNoise, measurementNoise)`:
`Q` and `R` are stored verbatim, `x = 0`, `P = 1`, `K = 0`, not initialized,
empty history.  The defaulted arguments of the source are
`processNoise = 4.0` and `measurementNoise = 0.015`. -/
def OptimizedKalmanFilter.create (processNoise measurementNoise : α) :
    OptimizedKalmanFilter α :=
  ⟨processNoise, measurementNoise, 0, 1, 0, false, History.empty⟩

/-- The filter constructed with both source default arguments
(`processNoise = 4.0`, `measurementNoise = 0.015 = 3/200`). -/
def OptimizedKalmanFilter.createDefault : OptimizedKalmanFilter ℚ :=
  OptimizedKalmanFilter.create 4 (3/200)

/-- `predict()`: the state estimate is kept (constant model) and the error
covariance grows by the process noise, `P = P + Q`. -/
def OptimizedKalmanFilter.predict (s : OptimizedKalmanFilter α) : OptimizedKalmanFilter α :=
  { s with P := s.P + s.Q }

/-- `addToHistory(measurement, estimate, innovation)` on the filter object:
only the history record changes. -/
def OptimizedKalmanFilter.addToHistory (s : OptimizedKalmanFilter α)
    (measurement estimate innovation : α) : OptimizedKalmanFilter α :=
  { s with history := s.history.addToHistory measurement estimate innovation }

/-- `update(measurement)`.  First call (not yet initialized): store the
measurement as the estimate, mark initialized, log it, return it.
Subsequent calls: `predict()`; `K = P/(P+R)`; `innovation = measurement - x`;
`x = x + K*innovation`; `P = (1-K)*P`; log; return `x`.  The returned
number and the mutated object are paired. -/
def OptimizedKalmanFilter.update (s : OptimizedKalmanFilter α) (measurement : α) :
    α × OptimizedKalmanFilter α :=
  if s.isInitialized = false then
    let s1 := { s with x := measurement, isInitialized := true }
    let s2 := s1.addToHistory measurement measurement 0
    (s2.x, s2)
  else
    let sp := s.predict
    let K := sp.P / (sp.P + sp.R)
    let innovation := measurement - sp.x
    let x1 := sp.x + K * innovation
    let P1 := (1 - K) * sp.P
    let s1 := { sp with K := K, x := x1, P := P1 }
    let s2 := s1.addToHistory measurement s1.x innovation
    (s2.x, s2)

/-- `filter(value)` is an alias for `update(value)`. -/
def OptimizedKalmanFilter.filter (s : OptimizedKalmanFilter α) (value : α) :
    α × OptimizedKalmanFilter α :=
  s.update value

/-- `setParameters(processNoise, measurementNoise)`: overwrite `Q` and `R`
verbatim; the source performs no validation and touches nothing else. -/
def OptimizedKalmanFilter.setParameters (s : OptimizedKalmanFilter α)
    (processNoise measurementNoise : α) : OptimizedKalmanFilter α :=
  { s with Q := processNoise, R := measurementNoise }

/-- `reset()`: `x = 0`, `P = 1`, `K = 0`, not initialized, all three history
arrays cleared.  `Q` and `R` are kept. -/
def OptimizedKalmanFilter.reset (s : OptimizedKalmanFilter α) : OptimizedKalmanFilter α :=
  { s with x := 0, P := 1, K := 0, isInitialized := false, history := History.empty }

/-- One call against a scalar filter: either `update(m)` or
`setParameters(q, r)`.  Used to state properties of arbitrary finite call
sequences. -/
inductive FilterOp (α : Type) where
  | upd (measurement : α)
  | setp (processNoise measurementNoise : α)

/-- Run a finite sequence of calls against a scalar filter, discarding the
returned estimates. -/
def runOps (s : OptimizedKalmanFilter α) : List (FilterOp α) → OptimizedKalmanFilter α
  | [] => s
  | FilterOp.upd m :: rest => runOps (s.update m).2 rest
  | FilterOp.setp q r :: rest => runOps (s.setParameters q r) rest

/-- A concrete already-initialized filter state (defaults `Q = 4`,
`R = 0.015`, estimate `2`, covariance `1`), used to instantiate theorems
with an `isInitialized` hypothesis. -/
def sampleInitialized : OptimizedKalmanFilter ℚ :=
  ⟨4, 3/200, 2, 1, 0, true, History.empty⟩

/-- A landmark keypoint as delivered by the detector: pixel coordinates
plus relative depth.  The source treats `z` as optional (`point.z || 0`);
here `z` is always a number, which makes `point.z || 0` equal to `point.z`
(for `z = 0` both sides are `0`). -/
structure Keypoint where
  x : ℝ
  y : ℝ
  z : ℝ

instance : Inhabited Keypoint := ⟨⟨0, 0, 0⟩⟩

/-- A 3-component vector `{x, y, z}` of the source, over the reals. -/
structure Vector3 where
  x : ℝ
  y : ℝ
  z : ℝ

/-- A quaternion `{w, x, y, z}` of the source, over the reals. -/
structure Quat where
  w : ℝ
  x : ℝ
  y : ℝ
  z : ℝ

/-- `Vector3KalmanFilter`: three independent scalar filters, one per axis,
all constructed with the same noise parameters. -/
structure Vector3KalmanFilter where
  xFilter : OptimizedKalmanFilter ℝ
  yFilter : OptimizedKalmanFilter ℝ
  zFilter : OptimizedKalmanFilter ℝ

/-- The `Vector3KalmanFilter` constructor. -/
noncomputable def Vector3KalmanFilter.create (processNoise measurementNoise : ℝ) : Vector3KalmanFilter :=
  ⟨.create processNoise measurementNoise, .create processNoise measurementNoise,
   .create processNoise measurementNoise⟩

/-- `Vector3KalmanFilter.filter(vector)`: filter each axis independently. -/
noncomputable def Vector3KalmanFilter.filter (s : Vector3KalmanFilter) (vector : Vector3) :
    Vector3 × Vector3KalmanFilter :=
  let fx := s.xFilter.filter vector.x
  let fy := s.yFilter.filter vector.y
  let fz := s.zFilter.filter vector.z
  (⟨fx.1, fy.1, fz.1⟩, ⟨fx.2, fy.2, fz.2⟩)

/-- `QuaternionKalmanFilter`: four independent scalar filters over the
quaternion components. -/
structure QuaternionKalmanFilter where
  wFilter : OptimizedKalmanFilter ℝ
  xFilter : OptimizedKalmanFilter ℝ
  yFilter : OptimizedKalmanFilter ℝ
  zFilter : OptimizedKalmanFilter ℝ

/-- The `QuaternionKalmanFilter` constructor (source defaults
`processNoise = 3.5`, `measurementNoise = 0.02`). -/
noncomputable def QuaternionKalmanFilter.create (processNoise measurementNoise : ℝ) :
    QuaternionKalmanFilter :=
  ⟨.create processNoise measurementNoise, .create processNoise measurementNoise,
   .create processNoise measurementNoise, .create processNoise measurementNoise⟩

/-- The magnitude `Math.sqrt(q.w*q.w + q.x*q.x + q.y*q.y + q.z*q.z)`
computed inside `QuaternionKalmanFilter.normalize`. -/
noncomputable def Quat.magnitude (q : Quat) : ℝ :=
  Real.sqrt (q.w * q.w + q.x * q.x + q.y * q.y + q.z * q.z)

/-- `QuaternionKalmanFilter.normalize(q)`: divide each component by the
magnitude; if the magnitude is zero return the identity quaternion
`{w: 1, x: 0, y: 0, z: 0}`. -/
noncomputable def QuaternionKalmanFilter.normalize (q : Quat) : Quat :=
  let magnitude := q.magnitude
  if magnitude = 0 then ⟨1, 0, 0, 0⟩
  else ⟨q.w / magnitude, q.x / magnitude, q.y / magnitude, q.z / magnitude⟩

/-- The component-wise filtered quaternion built inside
`QuaternionKalmanFilter.filter` before normalization (the `filtered`
local of the source). -/
noncomputable def QuaternionKalmanFilter.filteredComponents (s : QuaternionKalmanFilter) (q : Quat) :
    Quat :=
  ⟨(s.wFilter.filter q.w).1, (s.xFilter.filter q.x).1,
   (s.yFilter.filter q.y).1, (s.zFilter.filter q.z).1⟩

/-- `QuaternionKalmanFilter.filter(quaternion)`: filter the four components
independently, then normalize the result; the four component filters are
advanced. -/
noncomputable def QuaternionKalmanFilter.filter (s : QuaternionKalmanFilter) (q : Quat) :
    Quat × QuaternionKalmanFilter :=
  (QuaternionKalmanFilter.normalize (s.filteredComponents q),
   ⟨(s.wFilter.filter q.w).2, (s.xFilter.filter q.x).2,
    (s.yFilter.filter q.y).2, (s.zFilter.filter q.z).2⟩)

/- The `CONFIG.autoScale` block (exported as `AUTO_SCALE`):
`baseScale = 0.0018`, `eyeDistanceReference = 100`, `adaptiveFactor = 1.0`,
`minScale = 0.0005`, `maxScale = 0.01`. -/
namespace AUTO_SCALE

noncomputable def baseScale : ℝ := 9/5000

def eyeDistanceReference : ℝ := 100

def adaptiveFactor : ℝ := 1

noncomputable def minScale : ℝ := 1/2000

noncomputable def maxScale : ℝ := 1/100

end AUTO_SCALE

/- The `CONFIG.faceLandmarks` block (exported as `FACE_LANDMARKS`):
landmark indices for the semantic groups used by the tracker and the
calibrator. -/
namespace FACE_LANDMARKS

def leftEye : List ℕ := [33, 133, 160, 159, 158, 144, 145, 153]

def rightEye : List ℕ := [362, 263, 387, 386, 385, 373, 374, 380]

def forehead : List ℕ := [10, 67, 109, 338, 297]

def noseTip : ℕ := 1

def mouthCenter : ℕ := 13

def leftTemple : ℕ := 234

def rightTemple : ℕ := 454

def topOfHead : ℕ := 10

end FACE_LANDMARKS

/-- An argument to `getAverageLandmark`: the `FACE_LANDMARKS` entries are
either a single index or an array of indices, and both versions of
`getAverageLandmark` branch on `Array.isArray(indices)`. -/
inductive LandmarkIndices where
  | single (index : ℕ)
  | group (indices : List ℕ)

namespace AutoScaleDetection

/-- `AutoScaleDetection.isValidKeypoint`: the source checks that the
keypoint exists and that `x` and `y` are non-NaN numbers.  Keypoints in
this model are always triples of real numbers, so the check always
succeeds. -/
def isValidKeypoint (_point : Keypoint) : Bool := true

/-- `AutoScaleDetection.safeGetKeypoint(keypoints, index)`: out-of-range or
invalid entries yield the default `{x: 0, y: 0, z: 0}`; otherwise the
stored point is returned (with `z || 0`, which equals `z` here). -/
def safeGetKeypoint (keypoints : List Keypoint) (index : ℕ) : Keypoint :=
  if index < keypoints.length then
    let point := keypoints.getD index ⟨0, 0, 0⟩
    if isValidKeypoint point then ⟨point.x, point.y, point.z⟩ else ⟨0, 0, 0⟩
  else ⟨0, 0, 0⟩

/-- `AutoScaleDetection.getAverageLandmark(keypoints, indices)`: a single
index is forwarded to `safeGetKeypoint`; an index array is averaged over
its valid points (every safely fetched point is valid here, so
`validCount = indices.length`), with the zero default when no point is
valid (empty index list). -/
noncomputable def getAverageLandmark (keypoints : List Keypoint) :
    LandmarkIndices → Keypoint
  | LandmarkIndices.single index => safeGetKeypoint keypoints index
  | LandmarkIndices.group indices =>
    let pts := indices.map (fun idx => safeGetKeypoint keypoints idx)
    let valid := pts.filter (fun p => isValidKeypoint p)
    if valid.length = 0 then ⟨0, 0, 0⟩
    else
      ⟨(valid.map Keypoint.x).sum / valid.length,
       (valid.map Keypoint.y).sum / valid.length,
       (valid.map Keypoint.z).sum / valid.length⟩

/-- The averaged left-eye point computed in `calculateRealHeadDimensions`. -/
noncomputable def leftEyePoint (keypoints : List Keypoint) : Keypoint :=
  getAverageLandmark keypoints (LandmarkIndices.group FACE_LANDMARKS.leftEye)

/-- The averaged right-eye point computed in `calculateRealHeadDimensions`. -/
noncomputable def rightEyePoint (keypoints : List Keypoint) : Keypoint :=
  getAverageLandmark keypoints (LandmarkIndices.group FACE_LANDMARKS.rightEye)

/-- The averaged forehead point computed in `calculateRealHeadDimensions`. -/
noncomputable def foreheadPoint (keypoints : List Keypoint) : Keypoint :=
  getAverageLandmark keypoints (LandmarkIndices.group FACE_LANDMARKS.forehead)

/-- Inter-pupillary distance in pixels:
`Math.sqrt((rightEye.x - leftEye.x)^2 + (rightEye.y - leftEye.y)^2)`. -/
noncomputable def eyeDistancePixels (keypoints : List Keypoint) : ℝ :=
  Real.sqrt (((rightEyePoint keypoints).x - (leftEyePoint keypoints).x) ^ 2 +
    ((rightEyePoint keypoints).y - (leftEyePoint keypoints).y) ^ 2)

/-- Head width in pixels, temple to temple. -/
noncomputable def headWidthPixels (keypoints : List Keypoint) : ℝ :=
  Real.sqrt
    (((safeGetKeypoint keypoints FACE_LANDMARKS.rightTemple).x -
        (safeGetKeypoint keypoints FACE_LANDMARKS.leftTemple).x) ^ 2 +
      ((safeGetKeypoint keypoints FACE_LANDMARKS.rightTemple).y -
        (safeGetKeypoint keypoints FACE_LANDMARKS.leftTemple).y) ^ 2)

/-- Head height in pixels, `Math.abs(topOfHead.y - nose.y)`. -/
noncomputable def headHeightPixels (keypoints : List Keypoint) : ℝ :=
  |(safeGetKeypoint keypoints FACE_LANDMARKS.topOfHead).y -
    (safeGetKeypoint keypoints FACE_LANDMARKS.noseTip).y|

/-- The assumed average inter-pupillary distance, `averageIPDmm = 63`. -/
def averageIPDmm : ℝ := 63

/-- The assumed focal length in pixels, `focalLengthPixels = 500`. -/
def focalLengthPixels : ℝ := 500

/-- `pixelToMmRatio = averageIPDmm / eyeDistancePixels` (renamed here to
avoid a reserved suffix). -/
noncomputable def pixelToMmFactor (keypoints : List Keypoint) : ℝ :=
  averageIPDmm / eyeDistancePixels keypoints

/-- `realHeadWidthMm = headWidthPixels * pixelToMmRatio`. -/
noncomputable def realHeadWidthMm (keypoints : List Keypoint) : ℝ :=
  headWidthPixels keypoints * pixelToMmFactor keypoints

/-- `realHeadHeightMm = headHeightPixels * pixelToMmRatio`. -/
noncomputable def realHeadHeightMm (keypoints : List Keypoint) : ℝ :=
  headHeightPixels keypoints * pixelToMmFactor keypoints

/-- Reference adult head width, `referenceHeadWidthMm = 145`. -/
def referenceHeadWidthMm : ℝ := 145

/-- Reference adult head height, `referenceHeadHeightMm = 230`. -/
def referenceHeadHeightMm : ℝ := 230

/-- `widthScaleFactor = realHeadWidthMm / referenceHeadWidthMm`. -/
noncomputable def widthScaleFactor (keypoints : List Keypoint) : ℝ :=
  realHeadWidthMm keypoints / referenceHeadWidthMm

/-- `heightScaleFactor = realHeadHeightMm / referenceHeadHeightMm`. -/
noncomputable def heightScaleFactor (keypoints : List Keypoint) : ℝ :=
  realHeadHeightMm keypoints / referenceHeadHeightMm

/-- `overallScaleFactor = (widthScaleFactor + heightScaleFactor) / 2`. -/
noncomputable def overallScaleFactor (keypoints : List Keypoint) : ℝ :=
  (widthScaleFactor keypoints + heightScaleFactor keypoints) / 2

/-- The record returned by a successful `calculateRealHeadDimensions` call
(the `timestamp: Date.now()` field is wall-clock input and is omitted). -/
structure HeadDimensions where
  widthPixels : ℝ
  heightPixels : ℝ
  eyeDistancePixels : ℝ
  widthMm : ℝ
  heightMm : ℝ
  depthMm : ℝ
  distanceMm : ℝ
  pixelToMmFactor : ℝ
  widthScaleFactor : ℝ
  heightScaleFactor : ℝ
  overallScaleFactor : ℝ
  foreheadPosition : Keypoint

/-- `AutoScaleDetection.calculateRealHeadDimensions(keypoints, width, height)`.
Returns `null` (modelled as `none`) when fewer than 468 keypoints are
supplied, when an eye point is invalid (vacuous here), when the eye
distance is non-positive, when a head dimension is non-positive, or when
the overall scale factor leaves `[0.5, 2.0]`; the companion `isNaN`
conditions of the source are vacuous in exact arithmetic.  Otherwise the
measured record is returned. -/
noncomputable def calculateRealHeadDimensions (keypoints : List Keypoint)
    (width height : ℝ) : Option HeadDimensions :=
  if keypoints.length < 468 then none
  else if isValidKeypoint (leftEyePoint keypoints) = false ∨
      isValidKeypoint (rightEyePoint keypoints) = false then none
  else if eyeDistancePixels keypoints ≤ 0 then none
  else if headWidthPixels keypoints ≤ 0 ∨ headHeightPixels keypoints ≤ 0 then none
  else if overallScaleFactor keypoints < 1/2 ∨ 2 < overallScaleFactor keypoints then none
  else
    some
      { widthPixels := headWidthPixels keypoints
        heightPixels := headHeightPixels keypoints
        eyeDistancePixels := eyeDistancePixels keypoints
        widthMm := realHeadWidthMm keypoints
        heightMm := realHeadHeightMm keypoints
        depthMm := 190
        distanceMm := averageIPDmm * focalLengthPixels / eyeDistancePixels keypoints
        pixelToMmFactor := pixelToMmFactor keypoints
        widthScaleFactor := widthScaleFactor keypoints
        heightScaleFactor := heightScaleFactor keypoints
        overallScaleFactor := overallScaleFactor keypoints
        foreheadPosition :=
          ⟨(foreheadPoint keypoints).x / width, (foreheadPoint keypoints).y / height,
            (foreheadPoint keypoints).z⟩ }

/-- The record produced by `AutoScaleDetection.analyzeModelDimensions`.
That method measures the 3D asset with the external THREE.js library
(`Box3.setFromObject`), so its result (or `null` on failure) is an input
of this model rather than a computation. -/
structure ModelDimensions where
  width : ℝ
  height : ℝ
  depth : ℝ

/-- The result shape of `getAutoScaleForModel` / `getFallbackScale`. -/
structure ScaleResult where
  scale : Vector3
  headDimensions : Option HeadDimensions
  modelDimensions : Option ModelDimensions
  isFallback : Bool

/-- `AutoScaleDetection.getFallbackScale()`: the configured base scale on
all three axes (`AUTO_SCALE.baseScale || 0.0018` equals `baseScale`, which
is nonzero). -/
noncomputable def getFallbackScale : ScaleResult :=
  ⟨⟨AUTO_SCALE.baseScale, AUTO_SCALE.baseScale, AUTO_SCALE.baseScale⟩, none, none, true⟩

/-- `AutoScaleDetection.getAutoScaleForModel(model, keypoints, videoWidth,
videoHeight, productType)`.  The model analysis result is passed in (see
`ModelDimensions`).  When either the head dimensions or the model
dimensions are missing the fallback is returned.  Otherwise
`finalScale = baseScale * adaptiveFactor * productMultiplier *
AUTO_SCALE.adaptiveFactor`, clamped into `[minScale, maxScale]`, with a
final fallback when the clamped scale is non-positive (the `isNaN` guard
is vacuous here). -/
noncomputable def getAutoScaleForModel (modelDims : Option ModelDimensions)
    (keypoints : List Keypoint) (videoWidth videoHeight : ℝ)
    (productType : String) : ScaleResult :=
  match calculateRealHeadDimensions keypoints videoWidth videoHeight, modelDims with
  | some headDims, some md =>
    let baseScale := AUTO_SCALE.baseScale
    let adaptiveFactor := headDims.eyeDistancePixels / AUTO_SCALE.eyeDistanceReference
    let productMultiplier : ℝ :=
      if productType = "hat" ∨ productType = "cap" then 1
      else if productType = "glasses" then 7/10
      else 1
    let rawScale := baseScale * adaptiveFactor * productMultiplier * AUTO_SCALE.adaptiveFactor
    let finalScale := max AUTO_SCALE.minScale (min AUTO_SCALE.maxScale rawScale)
    if finalScale ≤ 0 then getFallbackScale
    else ⟨⟨finalScale, finalScale, finalScale⟩, some headDims, some md, false⟩
  | _, _ => getFallbackScale

end AutoScaleDetection

/- The `CONFIG.kalman` block (exported as `KALMAN`): per-quantity noise
pairs used by the `FaceTracker` constructor. -/
namespace KALMAN

noncomputable def positionProcessNoise : ℝ := 4

noncomputable def positionMeasurementNoise : ℝ := 3/200

noncomputable def rotationProcessNoise : ℝ := 7/2

noncomputable def rotationMeasurementNoise : ℝ := 1/50

noncomputable def scaleProcessNoise : ℝ := 2

noncomputable def scaleMeasurementNoise : ℝ := 1/40

end KALMAN

/- The `CONFIG.tracking` block (exported as `TRACKING`). -/
namespace TRACKING

noncomputable def stabilizationFrames : ℝ := 5

end TRACKING

/-- `Math.atan2(y, x)`: the angle of the point `(x, y)`, in `(-π, π]`,
with `atan2(0, 0) = 0`. -/
noncomputable def atan2 (y x : ℝ) : ℝ :=
  if 0 < x then Real.arctan (y / x)
  else if x < 0 ∧ 0 ≤ y then Real.arctan (y / x) + Real.pi
  else if x < 0 ∧ y < 0 then Real.arctan (y / x) - Real.pi
  else if x = 0 ∧ 0 < y then Real.pi / 2
  else if x = 0 ∧ y < 0 then -(Real.pi / 2)
  else 0

/-- `Math.sign` on the reals. -/
noncomputable def mathSign (v : ℝ) : ℝ :=
  if v < 0 then -1 else if 0 < v then 1 else 0

namespace FaceTracker

/-- Mutable tracker state. `src/js/modules/FaceTracker.js` keeps the three
Kalman filters, cached previous landmarks, the confidence history and the
stabilization counters on `this`; detector/canvas/callback handles are
external and omitted.  `maxHistorySize = 30` is a constant never
reassigned. -/
structure State where
  positionFilter : Vector3KalmanFilter
  rotationFilter : QuaternionKalmanFilter
  scaleFilter : Vector3KalmanFilter
  previousLandmarks : Option (List Keypoint)
  confidenceHistory : List ℝ
  frameCount : ℕ
  stabilizationComplete : Bool

/-- The `FaceTracker` constructor: filters built from the `KALMAN`
configuration, no cached landmarks, empty confidence history, frame count
zero, stabilization incomplete. -/
noncomputable def State.create : State :=
  ⟨Vector3KalmanFilter.create KALMAN.positionProcessNoise KALMAN.positionMeasurementNoise,
   QuaternionKalmanFilter.create KALMAN.rotationProcessNoise KALMAN.rotationMeasurementNoise,
   Vector3KalmanFilter.create KALMAN.scaleProcessNoise KALMAN.scaleMeasurementNoise,
   none, [], 0, false⟩

/-- `FaceTracker.getAverageLandmark(keypoints, indices)`: unlike the
`AutoScaleDetection` version this performs no bounds checking — it reads
`keypoints[idx]` and immediately dereferences `.x`, so an out-of-range
index throws (modelled as `none`); a single index returns the raw entry
without dereferencing it (`keypoints[indices]` may be `undefined`, hence
the `Option`). -/
noncomputable def getAverageLandmark (keypoints : List Keypoint) :
    LandmarkIndices → Option Keypoint
  | LandmarkIndices.single index => keypoints.get? index
  | LandmarkIndices.group indices =>
    if indices.all (fun idx => decide (idx < keypoints.length)) then
      some
        ⟨(indices.map (fun idx => (keypoints.getD idx default).x)).sum / indices.length,
         (indices.map (fun idx => (keypoints.getD idx default).y)).sum / indices.length,
         (indices.map (fun idx => (keypoints.getD idx default).z)).sum / indices.length⟩
    else none

/-- `FaceTracker.calculateMovement(current, previous)`: zero on length
mismatch, otherwise the mean distance over a sample of at most 20
landmarks at indices `floor(i * length / sampleSize)`. -/
noncomputable def calculateMovement (current previous : List Keypoint) : ℝ :=
  if current.length ≠ previous.length then 0
  else
    let sampleSize := min 20 current.length
    let totalDist :=
      ((List.range sampleSize).map (fun i =>
        let idx := i * current.length / sampleSize
        let dx := (current.getD idx default).x - (previous.getD idx default).x
        let dy := (current.getD idx default).y - (previous.getD idx default).y
        Real.sqrt (dx * dx + dy * dy))).sum
    totalDist / sampleSize

/-- `FaceTracker.getAverageConfidence()`: zero for an empty history,
otherwise the mean of the recorded scores. -/
noncomputable def getAverageConfidence (st : State) : ℝ :=
  if st.confidenceHistory.length = 0 then 0
  else st.confidenceHistory.sum / st.confidenceHistory.length

/-- `FaceTracker.calculateAdvancedConfidence(face, leftEye, rightEye,
eyeDistance)`: starts at 1.0 and multiplies penalty factors for landmark
count, eye distance, frame-to-frame movement, deviation from the rolling
average, and the stabilization warm-up; the result is clamped to `[0, 1]`
and `this.previousLandmarks` is updated to the current keypoints.
`leftEye` and `rightEye` are accepted but never read by the source. -/
noncomputable def calculateAdvancedConfidence (st : State) (faceKeypoints : List Keypoint)
    (_leftEye _rightEye : Keypoint) (eyeDistance : ℝ) : ℝ × State :=
  let c0 : ℝ := 1
  let landmarkCount := faceKeypoints.length
  let c1 :=
    if 468 ≤ landmarkCount then c0 * 1
    else if 400 ≤ landmarkCount then c0 * (95/100)
    else c0 * (85/100)
  let c2 :=
    if eyeDistance < 5/100 then c1 * (85/100)
    else if 3/10 < eyeDistance then c1 * (9/10)
    else c1
  let c3 :=
    match st.previousLandmarks with
    | some previous =>
      let movement := calculateMovement faceKeypoints previous
      if 15/100 < movement then c2 * (9/10)
      else if 1/10 < movement then c2 * (95/100)
      else c2
    | none => c2
  let avgConfidence := getAverageConfidence st
  let c4 :=
    if 0 < avgConfidence ∧ 3/10 < |c3 - avgConfidence| then
      c3 * (7/10) + avgConfidence * (3/10)
    else c3
  let c5 :=
    if st.stabilizationComplete = false then
      c4 * (6/10 + (4/10) * ((st.frameCount : ℝ) / TRACKING.stabilizationFrames))
    else c4
  (max 0 (min 1 c5), { st with previousLandmarks := some faceKeypoints })

/-- `FaceTracker.eulerToQuaternion(euler)`. -/
noncomputable def eulerToQuaternion (euler : Vector3) : Quat :=
  let cy := Real.cos (euler.y * (1/2))
  let sy := Real.sin (euler.y * (1/2))
  let cp := Real.cos (euler.x * (1/2))
  let sp := Real.sin (euler.x * (1/2))
  let cr := Real.cos (euler.z * (1/2))
  let sr := Real.sin (euler.z * (1/2))
  ⟨cr * cp * cy + sr * sp * sy,
   sr * cp * cy - cr * sp * sy,
   cr * sp * cy + sr * cp * sy,
   cr * cp * sy - sr * sp * cy⟩

/-- `FaceTracker.quaternionToEuler(q)`, with the gimbal-lock clamp on the
pitch component. -/
noncomputable def quaternionToEuler (q : Quat) : Vector3 :=
  let sinrCosp := 2 * (q.w * q.x + q.y * q.z)
  let cosrCosp := 1 - 2 * (q.x * q.x + q.y * q.y)
  let roll := atan2 sinrCosp cosrCosp
  let sinp := 2 * (q.w * q.y - q.z * q.x)
  let pitch := if 1 ≤ |sinp| then mathSign sinp * Real.pi / 2 else Real.arcsin sinp
  let sinyCosp := 2 * (q.w * q.z + q.x * q.y)
  let cosyCosp := 1 - 2 * (q.y * q.y + q.z * q.z)
  let yaw := atan2 sinyCosp cosyCosp
  ⟨pitch, yaw, roll⟩

/-- The record returned by `calculateFacePose` (tracking data for one
frame).  `mouthCenter` is `keypoints[13]` stored without dereferencing, so
it stays optional. -/
structure TrackingData where
  position : Vector3
  rotation : Vector3
  scale : Vector3
  confidence : ℝ
  rawPosition : Vector3
  rawRotation : Vector3
  leftEye : Keypoint
  rightEye : Keypoint
  nose : Keypoint
  mouthCenter : Option Keypoint
  forehead : Keypoint
  timestamp : ℝ
  rawKeypoints : List Keypoint
  isStabilized : Bool
  frameCount : ℕ

/-- `FaceTracker.calculateFacePose(face, width, height, timestamp)`.
The source reads the eye, nose and forehead landmarks (a JavaScript
`TypeError` on an out-of-range access propagates to the caller, modelled
as `none` — note there is no explicit length check), derives raw
position/rotation/scale, runs the three Kalman filters, and scores the
confidence.  The mutated tracker state is returned alongside the data. -/
noncomputable def calculateFacePose (st : State) (keypoints : List Keypoint)
    (width height timestamp : ℝ) : Option (TrackingData × State) :=
  Option.bind (getAverageLandmark keypoints (LandmarkIndices.group FACE_LANDMARKS.leftEye))
    fun leftEye =>
  Option.bind (getAverageLandmark keypoints (LandmarkIndices.group FACE_LANDMARKS.rightEye))
    fun rightEye =>
  Option.bind (getAverageLandmark keypoints (LandmarkIndices.group FACE_LANDMARKS.forehead))
    fun forehead =>
  Option.bind (keypoints.get? FACE_LANDMARKS.noseTip)
    fun nose =>
  let mouthCenter := keypoints.get? FACE_LANDMARKS.mouthCenter
  let rawPosition : Vector3 :=
    ⟨forehead.x / width, forehead.y / height, (leftEye.z + rightEye.z) / 2⟩
  let fp := st.positionFilter.filter rawPosition
  let eyeCenterX := (leftEye.x + rightEye.x) / 2 / width
  let noseX := nose.x / width
  let eyeDistance := |rightEye.x - leftEye.x| / width
  let yaw :=
    if 0 < eyeDistance then (noseX - eyeCenterX) / eyeDistance * Real.pi * (1/2) else 0
  let eyeCenterY := (leftEye.y + rightEye.y) / 2 / height
  let noseY := nose.y / height
  let pitch := (noseY - eyeCenterY) * Real.pi * (3/10)
  let roll := atan2 (rightEye.y - leftEye.y) (rightEye.x - leftEye.x)
  let rawRotation : Vector3 := ⟨pitch, yaw, roll⟩
  let quaternion := eulerToQuaternion rawRotation
  let fq := st.rotationFilter.filter quaternion
  let filteredRotation := quaternionToEuler fq.1
  let eyeDist :=
    Real.sqrt (((rightEye.x - leftEye.x) / width) ^ 2 + ((rightEye.y - leftEye.y) / height) ^ 2)
  let rawScale : Vector3 := ⟨eyeDist * 5, eyeDist * 5, eyeDist * 5⟩
  let fs := st.scaleFilter.filter rawScale
  let st1 :=
    { st with positionFilter := fp.2, rotationFilter := fq.2, scaleFilter := fs.2 }
  let conf := calculateAdvancedConfidence st1 keypoints leftEye rightEye eyeDistance
  some
    (⟨fp.1, filteredRotation, fs.1, conf.1, rawPosition, rawRotation, leftEye, rightEye,
      nose, mouthCenter, forehead, timestamp, keypoints, conf.2.stabilizationComplete,
      conf.2.frameCount⟩, conf.2)

end FaceTracker

/-- The all-zero full landmark set (468 points at the origin): a degenerate
but complete input for the calibrator. -/
def kp468zero : List Keypoint := List.replicate 468 ⟨0, 0, 0⟩

/-- A 400-point landmark set (shorter than the full 468): every index the
pose extractor reads is still in range. -/
def kp400 : List Keypoint := List.replicate 400 ⟨3, 4, 1⟩

/-- Pointwise description of the nominal calibration input: averaged eyes
100 pixels apart, temples `14500/63` pixels apart, crown-to-nose height
`23000/63` pixels, everything else at the origin. -/
noncomputable def kp9fun (i : ℕ) : Keypoint :=
  if i ∈ FACE_LANDMARKS.leftEye then ⟨0, 300, 0⟩
  else if i ∈ FACE_LANDMARKS.rightEye then ⟨100, 300, 0⟩
  else if i = FACE_LANDMARKS.rightTemple then ⟨14500/63, 0, 0⟩
  else if i = FACE_LANDMARKS.noseTip then ⟨0, 23000/63, 0⟩
  else ⟨0, 0, 0⟩

/-- The nominal calibration input itself: a full 468-point landmark set
realizing `eyeDistancePixels = 100` with head dimensions matching the
reference head exactly. -/
noncomputable def kp9 : List Keypoint := List.ofFn (fun i : Fin 468 => kp9fun i)

/-- A concrete model-dimension record (the external THREE.js measurement
of the asset), used to instantiate calibrator theorems. -/
def sampleModelDims : AutoScaleDetection.ModelDimensions := ⟨2, 1, 2⟩

theorem update_snd_Q (s : OptimizedKalmanFilter α) (m : α) : ((s.update m).2).Q = s.Q := by
  cases h : s.isInitialized <;>
    simp [OptimizedKalmanFilter.update, OptimizedKalmanFilter.predict,
      OptimizedKalmanFilter.addToHistory, h]

theorem update_snd_R (s : OptimizedKalmanFilter α) (m : α) : ((s.update m).2).R = s.R := by
  cases h : s.isInitialized <;>
    simp [OptimizedKalmanFilter.update, OptimizedKalmanFilter.predict,
      OptimizedKalmanFilter.addToHistory, h]

theorem update_snd_P (s : OptimizedKalmanFilter α) (m : α) :
    ((s.update m).2).P =
      if s.isInitialized then (1 - (s.P + s.Q) / (s.P + s.Q + s.R)) * (s.P + s.Q)
      else s.P := by
  cases h : s.isInitialized <;>
    simp [OptimizedKalmanFilter.update, OptimizedKalmanFilter.predict,
      OptimizedKalmanFilter.addToHistory, h]

theorem update_P_nonneg (s : OptimizedKalmanFilter α) (m : α)
    (hP : 0 ≤ s.P) (hQ : 0 ≤ s.Q) (hR : 0 < s.R) : 0 ≤ ((s.update m).2).P := by
  rw [update_snd_P]
  split_ifs with h
  · have hA : 0 ≤ s.P + s.Q := add_nonneg hP hQ
    have hden : 0 < s.P + s.Q + s.R := by linarith
    have hK : (s.P + s.Q) / (s.P + s.Q + s.R) ≤ 1 :=
      div_le_one_of_le₀ (by linarith) hden.le
    exact mul_nonneg (by linarith) hA
  · exact hP

theorem runOps_P_nonneg (ops : List (FilterOp α)) :
    ∀ s : OptimizedKalmanFilter α, 0 ≤ s.P → 0 ≤ s.Q → 0 < s.R →
      (∀ q r, FilterOp.setp q r ∈ ops → 0 ≤ q ∧ 0 < r) → 0 ≤ (runOps s ops).P := by
  induction ops with
  | nil => intro s hP _ _ _; simpa [runOps] using hP
  | cons op rest ih =>
    intro s hP hQ hR hops
    cases op with
    | upd m =>
      have hstep : runOps s (FilterOp.upd m :: rest) = runOps ((s.update m).2) rest := rfl
      rw [hstep]
      refine ih _ (update_P_nonneg s m hP hQ hR) ?_ ?_
        (fun q r hm => hops q r (List.mem_cons_of_mem _ hm))
      · rw [update_snd_Q]; exact hQ
      · rw [update_snd_R]; exact hR
    | setp q r =>
      have hqr := hops q r (List.mem_cons_self _ _)
      have hstep : runOps s (FilterOp.setp q r :: rest) = runOps (s.setParameters q r) rest := rfl
      rw [hstep]
      exact ih _ (by simpa [OptimizedKalmanFilter.setParameters] using hP)
        (by simpa [OptimizedKalmanFilter.setParameters] using hqr.1)
        (by simpa [OptimizedKalmanFilter.setParameters] using hqr.2)
        (fun q' r' hm => hops q' r' (List.mem_cons_of_mem _ hm))

/-- C1: for every initialized scalar filter with state `(x, P)` and
parameters `(Q, R)`, `update(m)` computes `P' = P + Q`,
`K = P' / (P' + R)`, `x' = x + K * (m - x)`, `P'' = (1 - K) * P'`, stores
`x'`, `P''` and `K` in the state, and returns `x'`. -/
theorem update_initialized_recurrence (s : OptimizedKalmanFilter α) (m : α)
    (hinit : s.isInitialized = true) :
    (s.update m).1 = s.x + (s.P + s.Q) / (s.P + s.Q + s.R) * (m - s.x) ∧
    ((s.update m).2).x = s.x + (s.P + s.Q) / (s.P + s.Q + s.R) * (m - s.x) ∧
    ((s.update m).2).P = (1 - (s.P + s.Q) / (s.P + s.Q + s.R)) * (s.P + s.Q) ∧
    ((s.update m).2).K = (s.P + s.Q) / (s.P + s.Q + s.R) := by
  simp [OptimizedKalmanFilter.update, OptimizedKalmanFilter.predict,
    OptimizedKalmanFilter.addToHistory, hinit]

/-- Witness for C1 at the concrete initialized state `sampleInitialized`
and measurement `10`. -/
theorem update_initialized_recurrence_witness :
    sampleInitialized.isInitialized = true ∧
    ((sampleInitialized.update 10).1 =
        sampleInitialized.x +
          (sampleInitialized.P + sampleInitialized.Q) /
            (sampleInitialized.P + sampleInitialized.Q + sampleInitialized.R) *
            (10 - sampleInitialized.x) ∧
      ((sampleInitialized.update 10).2).x =
        sampleInitialized.x +
          (sampleInitialized.P + sampleInitialized.Q) /
            (sampleInitialized.P + sampleInitialized.Q + sampleInitialized.R) *
            (10 - sampleInitialized.x) ∧
      ((sampleInitialized.update 10).2).P =
        (1 - (sampleInitialized.P + sampleInitialized.Q) /
            (sampleInitialized.P + sampleInitialized.Q + sampleInitialized.R)) *
          (sampleInitialized.P + sampleInitialized.Q) ∧
      ((sampleInitialized.update 10).2).K =
        (sampleInitialized.P + sampleInitialized.Q) /
          (sampleInitialized.P + sampleInitialized.Q + sampleInitialized.R)) :=
  ⟨rfl, update_initialized_recurrence sampleInitialized 10 rfl⟩

/-- C2 (counterexample): `setParameters` accepts a negative process noise,
and two updates later the covariance of the fresh filter is `-1 < 0`:
the invariant `P ≥ 0` fails for parameter values installable through
`setParameters`. -/
theorem covariance_negative_counterexample :
    (((((OptimizedKalmanFilter.create (4 : ℚ) (3/200)).setParameters (-(3/2)) 1).update
      0).2.update 0).2).P < 0 := by
  norm_num [OptimizedKalmanFilter.create, OptimizedKalmanFilter.setParameters,
    OptimizedKalmanFilter.update, OptimizedKalmanFilter.predict,
    OptimizedKalmanFilter.addToHistory, History.addToHistory]

/-- C2 (amended): starting from a freshly constructed filter, `P ≥ 0`
holds after every finite sequence of `update` and `setParameters` calls
provided the initial parameters and every pair installed by
`setParameters` satisfy `Q ≥ 0` and `R > 0` — which is true of the
constructor defaults and of every noise pair in the repository
configuration. -/
theorem covariance_nonneg_of_valid_params (processNoise measurementNoise : α)
    (ops : List (FilterOp α)) (hq : 0 ≤ processNoise) (hr : 0 < measurementNoise)
    (hops : ∀ q r, FilterOp.setp q r ∈ ops → 0 ≤ q ∧ 0 < r) :
    0 ≤ (runOps (OptimizedKalmanFilter.create processNoise measurementNoise) ops).P :=
  runOps_P_nonneg ops _ (by norm_num [OptimizedKalmanFilter.create]) hq hr hops

/-- Witness for the amended C2: default parameters, two updates. -/
theorem covariance_nonneg_witness :
    (0 : ℚ) ≤ 4 ∧ (0 : ℚ) < 3/200 ∧
      0 ≤ (runOps (OptimizedKalmanFilter.create (4 : ℚ) (3/200))
        [FilterOp.upd 1, FilterOp.upd 2]).P :=
  ⟨by norm_num, by norm_num,
    covariance_nonneg_of_valid_params 4 (3/200) _ (by norm_num) (by norm_num)
      (by intro q r hm; simp at hm)⟩

/-- C6: after `reset()`, the next `update(m)` returns `m` unfiltered and
leaves the filter exactly in the state a freshly constructed filter (with
the same noise parameters) has after its first `update(m)`: estimate `m`,
marked initialized. -/
theorem reset_update_passthrough (s : OptimizedKalmanFilter α) (m : α) :
    ((s.reset).update m).1 = m ∧
    (s.reset).update m = (OptimizedKalmanFilter.create s.Q s.R).update m ∧
    (((s.reset).update m).2).x = m ∧
    (((s.reset).update m).2).isInitialized = true := by
  refine ⟨?_, rfl, ?_, ?_⟩ <;>
    simp [OptimizedKalmanFilter.reset, OptimizedKalmanFilter.update,
      OptimizedKalmanFilter.addToHistory]

/-- C8 (counterexample): no minimum floor on the measurement noise is
enforced — `setParameters(1, 0)` stores `R = 0`, which is not strictly
positive. -/
theorem measurementNoise_no_floor_counterexample :
    ¬ (0 < ((OptimizedKalmanFilter.createDefault).setParameters 1 0).R) := by
  norm_num [OptimizedKalmanFilter.createDefault, OptimizedKalmanFilter.create,
    OptimizedKalmanFilter.setParameters]

/-- C8 (amended): the constructor and `setParameters` store the
measurement noise verbatim with no floor; the source default is
`0.015 > 0`, and whenever the installed `R` is positive the gain
denominator `P + R` is nonzero for every `P ≥ 0` — but `R = 0` itself is
installable. -/
theorem measurementNoise_stored_verbatim (s : OptimizedKalmanFilter α) (q r p : α)
    (hr : 0 < r) (hp : 0 ≤ p) :
    (s.setParameters q r).R = r ∧ (OptimizedKalmanFilter.create q r).R = r ∧
    0 < (OptimizedKalmanFilter.createDefault).R ∧
    p + (s.setParameters q r).R ≠ 0 := by
  refine ⟨rfl, rfl,
    by norm_num [OptimizedKalmanFilter.createDefault, OptimizedKalmanFilter.create], ?_⟩
  have hpos : 0 < p + r := by linarith
  simpa [OptimizedKalmanFilter.setParameters] using hpos.ne'

/-- Witness for the amended C8 at a concrete state and parameters. -/
theorem measurementNoise_stored_verbatim_witness :
    (0 : ℚ) < 1/40 ∧ (0 : ℚ) ≤ 1 ∧
      ((sampleInitialized.setParameters 2 (1/40)).R = 1/40 ∧
        (OptimizedKalmanFilter.create (2 : ℚ) (1/40)).R = 1/40 ∧
        0 < (OptimizedKalmanFilter.createDefault).R ∧
        1 + (sampleInitialized.setParameters 2 (1/40)).R ≠ 0) :=
  ⟨by norm_num, by norm_num,
    measurementNoise_stored_verbatim sampleInitialized 2 (1/40) 1 (by norm_num) (by norm_num)⟩

theorem magnitude_normalize_eq_one (q : Quat) :
    (QuaternionKalmanFilter.normalize q).magnitude = 1 := by
  have hS : 0 ≤ q.w * q.w + q.x * q.x + q.y * q.y + q.z * q.z := by
    have h1 := mul_self_nonneg q.w
    have h2 := mul_self_nonneg q.x
    have h3 := mul_self_nonneg q.y
    have h4 := mul_self_nonneg q.z
    linarith
  by_cases h : q.magnitude = 0
  · simp only [QuaternionKalmanFilter.normalize]
    rw [if_pos h, Quat.magnitude]
    norm_num
  · have hS0 : q.w * q.w + q.x * q.x + q.y * q.y + q.z * q.z ≠ 0 := by
      intro h0
      apply h
      rw [Quat.magnitude, h0, Real.sqrt_zero]
    have hmm : q.magnitude * q.magnitude =
        q.w * q.w + q.x * q.x + q.y * q.y + q.z * q.z := by
      rw [Quat.magnitude]
      exact Real.mul_self_sqrt hS
    have key : q.w / q.magnitude * (q.w / q.magnitude) +
        q.x / q.magnitude * (q.x / q.magnitude) +
        q.y / q.magnitude * (q.y / q.magnitude) +
        q.z / q.magnitude * (q.z / q.magnitude) = 1 := by
      field_simp
      linear_combination -hmm
    simp only [QuaternionKalmanFilter.normalize]
    rw [if_neg h]
    show Real.sqrt (q.w / q.magnitude * (q.w / q.magnitude) +
      q.x / q.magnitude * (q.x / q.magnitude) +
      q.y / q.magnitude * (q.y / q.magnitude) +
      q.z / q.magnitude * (q.z / q.magnitude)) = 1
    rw [key, Real.sqrt_one]

/-- C3: `QuaternionKalmanFilter.filter` always returns a quaternion of
unit magnitude (so within `1e-6` of `1`), and whenever the component-wise
filtered quaternion has magnitude zero the returned value is the identity
quaternion `{w: 1, x: 0, y: 0, z: 0}`. -/
theorem quaternion_filter_unit_norm (s : QuaternionKalmanFilter) (q : Quat) :
    |((s.filter q).1).magnitude - 1| ≤ 1/1000000 ∧
    ((s.filteredComponents q).magnitude = 0 →
      (s.filter q).1 = ⟨1, 0, 0, 0⟩) := by
  constructor
  · have h := magnitude_normalize_eq_one (s.filteredComponents q)
    have hfst : (s.filter q).1 = QuaternionKalmanFilter.normalize (s.filteredComponents q) :=
      rfl
    rw [hfst, h]
    norm_num
  · intro h0
    have hfst : (s.filter q).1 = QuaternionKalmanFilter.normalize (s.filteredComponents q) :=
      rfl
    rw [hfst]
    simp only [QuaternionKalmanFilter.normalize]
    rw [if_pos h0]

/-- Witness for C3: the first conjunct of the claim instantiated at a
freshly constructed rotation filter and the identity quaternion. -/
theorem quaternion_filter_unit_norm_witness :
    |(((QuaternionKalmanFilter.create (7/2) (1/50)).filter ⟨1, 0, 0, 0⟩).1).magnitude - 1| ≤
      1/1000000 :=
  (quaternion_filter_unit_norm (QuaternionKalmanFilter.create (7/2) (1/50)) ⟨1, 0, 0, 0⟩).1

/-- C5: the advanced confidence score is clamped into `[0, 1]` for every
tracker state, keypoint array (including an empty one) and eye distance
(including negative values). -/
theorem confidence_clamped (st : FaceTracker.State) (faceKeypoints : List Keypoint)
    (leftEye rightEye : Keypoint) (eyeDistance : ℝ) :
    0 ≤ (FaceTracker.calculateAdvancedConfidence st faceKeypoints leftEye rightEye
      eyeDistance).1 ∧
    (FaceTracker.calculateAdvancedConfidence st faceKeypoints leftEye rightEye
      eyeDistance).1 ≤ 1 := by
  unfold FaceTracker.calculateAdvancedConfidence
  exact ⟨le_max_left 0 _, max_le (by norm_num) (min_le_left 1 _)⟩

theorem safeGet_replicate (n : ℕ) (a : Keypoint) (i : ℕ) (h : i < n) :
    AutoScaleDetection.safeGetKeypoint (List.replicate n a) i = a := by
  have hlen : i < (List.replicate n a).length := by simpa using h
  simp only [AutoScaleDetection.safeGetKeypoint, AutoScaleDetection.isValidKeypoint]
  rw [if_pos hlen]
  simp only [if_true]
  rw [List.getD_eq_getElem _ _ hlen]
  simp

theorem avg_const (keypoints : List Keypoint) (indices : List ℕ) (a : Keypoint)
    (hne : indices ≠ [])
    (h : ∀ i ∈ indices, AutoScaleDetection.safeGetKeypoint keypoints i = a) :
    AutoScaleDetection.getAverageLandmark keypoints (LandmarkIndices.group indices) = a := by
  have hk : (indices.length : ℝ) ≠ 0 :=
    Nat.cast_ne_zero.mpr (List.length_pos.mpr hne).ne'
  simp only [AutoScaleDetection.getAverageLandmark, AutoScaleDetection.isValidKeypoint]
  rw [List.map_congr_left h, List.map_const']
  simp only [List.filter_true, List.length_replicate, List.map_replicate,
    List.sum_replicate, nsmul_eq_mul]
  rw [if_neg (by simpa using hne)]
  cases a with
  | mk ax ay az =>
    congr 1 <;> exact mul_div_cancel_left₀ _ hk

theorem kp468zero_leftEyePoint :
    AutoScaleDetection.leftEyePoint kp468zero = ⟨0, 0, 0⟩ := by
  rw [AutoScaleDetection.leftEyePoint]
  refine avg_const _ _ _ (by decide) ?_
  intro i hi
  rw [kp468zero]
  refine safeGet_replicate 468 _ i ?_
  revert hi
  revert i
  decide

theorem kp468zero_rightEyePoint :
    AutoScaleDetection.rightEyePoint kp468zero = ⟨0, 0, 0⟩ := by
  rw [AutoScaleDetection.rightEyePoint]
  refine avg_const _ _ _ (by decide) ?_
  intro i hi
  rw [kp468zero]
  refine safeGet_replicate 468 _ i ?_
  revert hi
  revert i
  decide

theorem kp468zero_overall : AutoScaleDetection.overallScaleFactor kp468zero = 0 := by
  have heye : AutoScaleDetection.eyeDistancePixels kp468zero = 0 := by
    rw [AutoScaleDetection.eyeDistancePixels, kp468zero_leftEyePoint, kp468zero_rightEyePoint]
    norm_num
  have hwidth : AutoScaleDetection.headWidthPixels kp468zero = 0 := by
    rw [AutoScaleDetection.headWidthPixels, kp468zero]
    rw [safeGet_replicate 468 _ _ (by norm_num [FACE_LANDMARKS.rightTemple]),
      safeGet_replicate 468 _ _ (by norm_num [FACE_LANDMARKS.leftTemple])]
    norm_num
  have hheight : AutoScaleDetection.headHeightPixels kp468zero = 0 := by
    rw [AutoScaleDetection.headHeightPixels, kp468zero]
    rw [safeGet_replicate 468 _ _ (by norm_num [FACE_LANDMARKS.topOfHead]),
      safeGet_replicate 468 _ _ (by norm_num [FACE_LANDMARKS.noseTip])]
    norm_num
  rw [AutoScaleDetection.overallScaleFactor, AutoScaleDetection.widthScaleFactor,
    AutoScaleDetection.heightScaleFactor, AutoScaleDetection.realHeadWidthMm,
    AutoScaleDetection.realHeadHeightMm, AutoScaleDetection.pixelToMmFactor,
    heye, hwidth, hheight]
  norm_num

/-- C4: whenever the computed overall scale factor (the average of the
width and height factors) falls outside the configured `[0.5, 2.0]`
bounds, `getAutoScaleForModel` does not return it: the head-dimension
computation rejects the frame and the fallback scale (the configured base
scale `0.0018` on all three axes) is returned instead.  The `NaN` arm of
the source condition is unrepresentable in exact arithmetic. -/
theorem autoscale_out_of_bounds_fallback (modelDims : Option AutoScaleDetection.ModelDimensions)
    (keypoints : List Keypoint) (videoWidth videoHeight : ℝ) (productType : String)
    (h : AutoScaleDetection.overallScaleFactor keypoints < 1/2 ∨
      2 < AutoScaleDetection.overallScaleFactor keypoints) :
    AutoScaleDetection.getAutoScaleForModel modelDims keypoints videoWidth videoHeight
        productType = AutoScaleDetection.getFallbackScale ∧
    (AutoScaleDetection.getAutoScaleForModel modelDims keypoints videoWidth videoHeight
        productType).scale.x = 9/5000 ∧
    (AutoScaleDetection.getAutoScaleForModel modelDims keypoints videoWidth videoHeight
        productType).scale.y = 9/5000 ∧
    (AutoScaleDetection.getAutoScaleForModel modelDims keypoints videoWidth videoHeight
        productType).scale.z = 9/5000 := by
  have hnone : AutoScaleDetection.calculateRealHeadDimensions keypoints videoWidth
      videoHeight = none := by
    rw [AutoScaleDetection.calculateRealHeadDimensions]
    split_ifs <;> rfl
  have hmain : AutoScaleDetection.getAutoScaleForModel modelDims keypoints videoWidth
      videoHeight productType = AutoScaleDetection.getFallbackScale := by
    simp only [AutoScaleDetection.getAutoScaleForModel, hnone]
  refine ⟨hmain, ?_, ?_, ?_⟩ <;>
    rw [hmain] <;>
    simp [AutoScaleDetection.getFallbackScale, AUTO_SCALE.baseScale]

/-- Witness for C4: the all-zero full landmark set computes an overall
factor of `0 < 0.5`, and the calibrator falls back. -/
theorem autoscale_out_of_bounds_witness :
    (AutoScaleDetection.overallScaleFactor kp468zero < 1/2 ∨
      2 < AutoScaleDetection.overallScaleFactor kp468zero) ∧
    AutoScaleDetection.getAutoScaleForModel (some sampleModelDims) kp468zero 640 480 "hat" =
      AutoScaleDetection.getFallbackScale := by
  have h : AutoScaleDetection.overallScaleFactor kp468zero < 1/2 ∨
      2 < AutoScaleDetection.overallScaleFactor kp468zero := by
    rw [kp468zero_overall]
    norm_num
  exact ⟨h,
    (autoscale_out_of_bounds_fallback (some sampleModelDims) kp468zero 640 480 "hat" h).1⟩

theorem kp9_length : kp9.length = 468 := by
  rw [kp9, List.length_ofFn]

theorem kp9_getD (i : ℕ) (h : i < 468) (d : Keypoint) : kp9.getD i d = kp9fun i := by
  rw [List.getD_eq_getD_get?, kp9, List.get?_ofFn]
  simp [List.ofFnNthVal, h]

theorem kp9_safeGet (i : ℕ) (h : i < 468) :
    AutoScaleDetection.safeGetKeypoint kp9 i = kp9fun i := by
  have hlen : i < kp9.length := by rw [kp9_length]; exact h
  simp only [AutoScaleDetection.safeGetKeypoint, AutoScaleDetection.isValidKeypoint]
  rw [if_pos hlen]
  simp only [if_true]
  rw [kp9_getD i h]

theorem kp9_leftEyePoint : AutoScaleDetection.leftEyePoint kp9 = ⟨0, 300, 0⟩ := by
  rw [AutoScaleDetection.leftEyePoint]
  refine avg_const _ _ _ (by decide) ?_
  intro i hi
  have hlt : i < 468 := by
    revert i
    decide
  rw [kp9_safeGet i hlt]
  simp only [FACE_LANDMARKS.leftEye] at hi
  fin_cases hi <;> norm_num [kp9fun, FACE_LANDMARKS.leftEye]

theorem kp9_rightEyePoint : AutoScaleDetection.rightEyePoint kp9 = ⟨100, 300, 0⟩ := by
  rw [AutoScaleDetection.rightEyePoint]
  refine avg_const _ _ _ (by decide) ?_
  intro i hi
  have hlt : i < 468 := by
    revert i
    decide
  rw [kp9_safeGet i hlt]
  simp only [FACE_LANDMARKS.rightEye] at hi
  fin_cases hi <;> norm_num [kp9fun, FACE_LANDMARKS.leftEye, FACE_LANDMARKS.rightEye]

theorem kp9_eyeDistance : AutoScaleDetection.eyeDistancePixels kp9 = 100 := by
  rw [AutoScaleDetection.eyeDistancePixels, kp9_leftEyePoint, kp9_rightEyePoint]
  rw [show (((⟨100, 300, 0⟩ : Keypoint)).x - ((⟨0, 300, 0⟩ : Keypoint)).x) ^ 2 +
      (((⟨100, 300, 0⟩ : Keypoint)).y - ((⟨0, 300, 0⟩ : Keypoint)).y) ^ 2 = (100 : ℝ) ^ 2 from by
    norm_num]
  exact Real.sqrt_sq (by norm_num)

theorem kp9_headWidth : AutoScaleDetection.headWidthPixels kp9 = 14500/63 := by
  rw [AutoScaleDetection.headWidthPixels]
  rw [kp9_safeGet FACE_LANDMARKS.rightTemple (by norm_num [FACE_LANDMARKS.rightTemple]),
    kp9_safeGet FACE_LANDMARKS.leftTemple (by norm_num [FACE_LANDMARKS.leftTemple])]
  rw [show kp9fun FACE_LANDMARKS.rightTemple = ⟨14500/63, 0, 0⟩ from by
    norm_num [kp9fun, FACE_LANDMARKS.leftEye, FACE_LANDMARKS.rightEye,
      FACE_LANDMARKS.rightTemple]]
  rw [show kp9fun FACE_LANDMARKS.leftTemple = ⟨0, 0, 0⟩ from by
    norm_num [kp9fun, FACE_LANDMARKS.leftEye, FACE_LANDMARKS.rightEye,
      FACE_LANDMARKS.leftTemple, FACE_LANDMARKS.rightTemple, FACE_LANDMARKS.noseTip]]
  rw [show (((⟨14500/63, 0, 0⟩ : Keypoint)).x - ((⟨0, 0, 0⟩ : Keypoint)).x) ^ 2 +
      (((⟨14500/63, 0, 0⟩ : Keypoint)).y - ((⟨0, 0, 0⟩ : Keypoint)).y) ^ 2 =
      ((14500 : ℝ)/63) ^ 2 from by norm_num]
  exact Real.sqrt_sq (by norm_num)

theorem kp9_headHeight : AutoScaleDetection.headHeightPixels kp9 = 23000/63 := by
  rw [AutoScaleDetection.headHeightPixels]
  rw [kp9_safeGet FACE_LANDMARKS.topOfHead (by norm_num [FACE_LANDMARKS.topOfHead]),
    kp9_safeGet FACE_LANDMARKS.noseTip (by norm_num [FACE_LANDMARKS.noseTip])]
  rw [show kp9fun FACE_LANDMARKS.topOfHead = ⟨0, 0, 0⟩ from by
    norm_num [kp9fun, FACE_LANDMARKS.leftEye, FACE_LANDMARKS.rightEye,
      FACE_LANDMARKS.topOfHead, FACE_LANDMARKS.rightTemple, FACE_LANDMARKS.noseTip]]
  rw [show kp9fun FACE_LANDMARKS.noseTip = ⟨0, 23000/63, 0⟩ from by
    norm_num [kp9fun, FACE_LANDMARKS.leftEye, FACE_LANDMARKS.rightEye,
      FACE_LANDMARKS.rightTemple, FACE_LANDMARKS.noseTip]]
  rw [show ((⟨0, 0, 0⟩ : Keypoint)).y - ((⟨0, 23000/63, 0⟩ : Keypoint)).y =
      -((23000 : ℝ)/63) from by norm_num]
  rw [abs_neg, abs_of_nonneg (by norm_num : (0 : ℝ) ≤ 23000/63)]

theorem kp9_overall : AutoScaleDetection.overallScaleFactor kp9 = 1 := by
  rw [AutoScaleDetection.overallScaleFactor, AutoScaleDetection.widthScaleFactor,
    AutoScaleDetection.heightScaleFactor, AutoScaleDetection.realHeadWidthMm,
    AutoScaleDetection.realHeadHeightMm, AutoScaleDetection.pixelToMmFactor,
    AutoScaleDetection.averageIPDmm, AutoScaleDetection.referenceHeadWidthMm,
    AutoScaleDetection.referenceHeadHeightMm, kp9_eyeDistance, kp9_headWidth,
    kp9_headHeight]
  norm_num

/-- C9: on the nominal full landmark set `kp9` — eye distance 100 pixels
against `eyeDistanceReference = 100`, configured `baseScale = 0.0018`,
`adaptiveFactor = 1.0`, product multiplier 1 for `productType = "hat"` —
the calibrator yields exactly `0.0018` on all three axes: the adaptive
factor is `100/100 = 1`, the product is `0.0018`, and it lies inside
`[minScale, maxScale] = [0.0005, 0.01]`, so the clamp leaves it
unchanged. -/
theorem autoscale_nominal (md : AutoScaleDetection.ModelDimensions)
    (videoWidth videoHeight : ℝ) :
    AutoScaleDetection.eyeDistancePixels kp9 = 100 ∧
    (AutoScaleDetection.getAutoScaleForModel (some md) kp9 videoWidth videoHeight
      "hat").scale.x = 9/5000 ∧
    (AutoScaleDetection.getAutoScaleForModel (some md) kp9 videoWidth videoHeight
      "hat").scale.y = 9/5000 ∧
    (AutoScaleDetection.getAutoScaleForModel (some md) kp9 videoWidth videoHeight
      "hat").scale.z = 9/5000 := by
  have hsome : AutoScaleDetection.calculateRealHeadDimensions kp9 videoWidth videoHeight =
      some
        { widthPixels := AutoScaleDetection.headWidthPixels kp9
          heightPixels := AutoScaleDetection.headHeightPixels kp9
          eyeDistancePixels := AutoScaleDetection.eyeDistancePixels kp9
          widthMm := AutoScaleDetection.realHeadWidthMm kp9
          heightMm := AutoScaleDetection.realHeadHeightMm kp9
          depthMm := 190
          distanceMm := AutoScaleDetection.averageIPDmm *
            AutoScaleDetection.focalLengthPixels / AutoScaleDetection.eyeDistancePixels kp9
          pixelToMmFactor := AutoScaleDetection.pixelToMmFactor kp9
          widthScaleFactor := AutoScaleDetection.widthScaleFactor kp9
          heightScaleFactor := AutoScaleDetection.heightScaleFactor kp9
          overallScaleFactor := AutoScaleDetection.overallScaleFactor kp9
          foreheadPosition :=
            ⟨(AutoScaleDetection.foreheadPoint kp9).x / videoWidth,
              (AutoScaleDetection.foreheadPoint kp9).y / videoHeight,
              (AutoScaleDetection.foreheadPoint kp9).z⟩ } := by
    rw [AutoScaleDetection.calculateRealHeadDimensions]
    rw [if_neg (by rw [kp9_length]; norm_num)]
    rw [if_neg (by simp [AutoScaleDetection.isValidKeypoint])]
    rw [if_neg (by rw [kp9_eyeDistance]; norm_num)]
    rw [if_neg (by rw [kp9_headWidth, kp9_headHeight]; norm_num)]
    rw [if_neg (by rw [kp9_overall]; norm_num)]
  have hprod : AUTO_SCALE.baseScale * (AutoScaleDetection.eyeDistancePixels kp9 /
      AUTO_SCALE.eyeDistanceReference) * 1 * AUTO_SCALE.adaptiveFactor = 9/5000 := by
    rw [kp9_eyeDistance, AUTO_SCALE.baseScale, AUTO_SCALE.eyeDistanceReference,
      AUTO_SCALE.adaptiveFactor]
    norm_num
  have hclamp : max AUTO_SCALE.minScale (min AUTO_SCALE.maxScale ((9 : ℝ)/5000)) = 9/5000 := by
    rw [AUTO_SCALE.minScale, AUTO_SCALE.maxScale]
    rw [min_eq_right (by norm_num), max_eq_right (by norm_num)]
  refine ⟨kp9_eyeDistance, ?_, ?_, ?_⟩ <;>
    · simp only [AutoScaleDetection.getAutoScaleForModel, hsome, true_or, if_true]
      rw [hprod, hclamp]
      rw [if_neg (by norm_num)]

theorem kp400_length : kp400.length = 400 := by
  rw [kp400, List.length_replicate]

theorem FT_avg_eq_some (keypoints : List Keypoint) (indices : List ℕ)
    (h : ∀ i ∈ indices, i < keypoints.length) :
    FaceTracker.getAverageLandmark keypoints (LandmarkIndices.group indices) =
      some
        ⟨(indices.map (fun idx => (keypoints.getD idx default).x)).sum / indices.length,
         (indices.map (fun idx => (keypoints.getD idx default).y)).sum / indices.length,
         (indices.map (fun idx => (keypoints.getD idx default).z)).sum / indices.length⟩ := by
  simp only [FaceTracker.getAverageLandmark]
  rw [if_pos (List.all_eq_true.mpr fun i hi => decide_eq_true (h i hi))]

theorem calculateFacePose_ne_none (st : FaceTracker.State) (keypoints : List Keypoint)
    (w h t : ℝ) (hlen : 388 ≤ keypoints.length) :
    FaceTracker.calculateFacePose st keypoints w h t ≠ none := by
  have h1 := FT_avg_eq_some keypoints FACE_LANDMARKS.leftEye (by
    intro i hi
    simp only [FACE_LANDMARKS.leftEye] at hi
    fin_cases hi <;> omega)
  have h2 := FT_avg_eq_some keypoints FACE_LANDMARKS.rightEye (by
    intro i hi
    simp only [FACE_LANDMARKS.rightEye] at hi
    fin_cases hi <;> omega)
  have h3 := FT_avg_eq_some keypoints FACE_LANDMARKS.forehead (by
    intro i hi
    simp only [FACE_LANDMARKS.forehead] at hi
    fin_cases hi <;> omega)
  obtain ⟨v, hv⟩ : ∃ v, keypoints.get? FACE_LANDMARKS.noseTip = some v := by
    rw [FACE_LANDMARKS.noseTip]
    exact ⟨_, List.get?_eq_get (by omega)⟩
  rw [FaceTracker.calculateFacePose, h1, h2, h3, hv]
  simp only [Option.some_bind]
  exact Option.some_ne_none _

/-- C7 (amended): only the calibrator enforces the full 468-point
requirement — `AutoScaleDetection.calculateRealHeadDimensions` returns
`null` for every shorter landmark set, while
`FaceTracker.calculateFacePose` performs no length check at all: it
computes a pose for every set in which the referenced landmark indices
(the largest is 387) are in range, and only fails when an access is out
of range. -/
theorem landmark_length_check (st : FaceTracker.State) (keypoints : List Keypoint)
    (w h t : ℝ) :
    (keypoints.length < 468 →
      AutoScaleDetection.calculateRealHeadDimensions keypoints w h = none) ∧
    (388 ≤ keypoints.length →
      FaceTracker.calculateFacePose st keypoints w h t ≠ none) := by
  constructor
  · intro hlen
    rw [AutoScaleDetection.calculateRealHeadDimensions, if_pos hlen]
  · exact fun hlen => calculateFacePose_ne_none st keypoints w h t hlen

/-- C7 (counterexample): a 400-point landmark set is shorter than the
required 468, yet `FaceTracker.calculateFacePose` does not fail or return
`null` for it — it computes a pose, contradicting the claim that the pose
extraction rejects every set shorter than 468. -/
theorem facepose_no_length_check :
    kp400.length < 468 ∧
    FaceTracker.calculateFacePose FaceTracker.State.create kp400 640 480 0 ≠ none := by
  constructor
  · rw [kp400_length]
    norm_num
  · exact calculateFacePose_ne_none _ _ _ _ _ (by rw [kp400_length]; norm_num)

/-- Witness for the amended C7 at the concrete 400-point set. -/
theorem landmark_length_check_witness :
    AutoScaleDetection.calculateRealHeadDimensions kp400 640 480 = none ∧
    FaceTracker.calculateFacePose FaceTracker.State.create kp400 640 480 0 ≠ none :=
  ⟨(landmark_length_check FaceTracker.State.create kp400 640 480 0).1
      (by rw [kp400_length]; norm_num),
   (landmark_length_check FaceTracker.State.create kp400 640 480 0).2
      (by rw [kp400_length]; norm_num)⟩

/-- C10: `setParameters(Q', R')` changes only the noise parameters; the
estimate, covariance, gain, initialization flag and history buffers are
untouched. -/
theorem setParameters_only_noise {β : Type} (s : OptimizedKalmanFilter β) (q r : β) :
    (s.setParameters q r).Q = q ∧ (s.setParameters q r).R = r ∧
    (s.setParameters q r).x = s.x ∧ (s.setParameters q r).P = s.P ∧
    (s.setParameters q r).K = s.K ∧
    (s.setParameters q r).isInitialized = s.isInitialized ∧
    (s.setParameters q r).history = s.history := by
  simp [OptimizedKalmanFilter.setParameters]

end ARFit
